import Mathlib

/-!
Verification of the ClasScorer Gateway frame-processing pipeline (`app.js`).

The embedding mirrors the code of `app.js`:
* the four downstream services (Localization, Recognition, Attention,
  HandRaising) are modelled as an oracle structure `Downstream` whose calls
  return `Except DownstreamError _` (a rejected axios promise is `.error`);
* `processFace` embeds the JS function `processFace` (lines 148-209);
* `processFrame` embeds the handler of `POST /api/process-frame`
  (lines 260-337), returning the HTTP response together with the list of
  downstream calls it issued, in program order;
* `isValidISOString` embeds the helper of lines 340-347; the host
  JavaScript `Date` library functions (`new Date(s)` parsing and
  `toISOString`) are not code of this repository, so they are parameters,
  gathered in `JsDateModel` (an invalid date, i.e. `NaN`, is `none`).

Numeric payload values (confidences, coordinates) are only copied by the
gateway, never computed with, so they are embedded as `Int`.
-/

/-- A bounding box as produced by the Localization coordinates call. -/
structure BoundingBox where
  x : Int
  y : Int
  width : Int
  height : Int
deriving DecidableEq, Repr

/-- A hand position as returned by the HandRaising service. -/
structure HandPosition where
  x : Int
  y : Int
deriving DecidableEq, Repr

/-- Body of a Recognition `/identify` response. -/
structure RecognitionData where
  person_id : String
  status : String
deriving DecidableEq, Repr

/-- Body of an Attention `/detect-face-attention` response. -/
structure AttentionData where
  attention_status : String
  confidence : Int
deriving DecidableEq, Repr

/-- Body of a HandRaising `/detect-hand-raising` response. -/
structure HandRaisingData where
  is_hand_raised : Bool
  confidence : Int
  hand_position : HandPosition
deriving DecidableEq, Repr

/-- The nested `hand_raising_status` object of a per-face result
(`app.js` lines 196-200). -/
structure HandRaisingStatus where
  is_hand_raised : Bool
  confidence : Int
  hand_position : HandPosition
deriving DecidableEq, Repr

/-- The per-face result record assembled by `processFace`
(`app.js` lines 192-203).  `bounding_box` is an `Option` because the JS
code reads `faceCoordinates[index]`, which is `undefined` (here `none`)
when the coordinates array is shorter than the faces array. -/
structure FaceAnalysis where
  person_id : String
  recognition_status : String
  attention_status : String
  hand_raising_status : HandRaisingStatus
  confidence : Int
  bounding_box : Option BoundingBox
deriving DecidableEq, Repr

/-- The `summary` object of a frame response (`app.js` lines 318-324). -/
structure Summary where
  new_faces : Nat
  known_faces : Nat
  focused_faces : Nat
  unfocused_faces : Nat
  hands_raised : Nat
deriving DecidableEq, Repr

/-- The successful frame response body (`app.js` lines 313-325). -/
structure FrameResponse where
  lecture_id : String
  timestamp : String
  total_faces : Nat
  faces : List FaceAnalysis
  summary : Summary
deriving DecidableEq, Repr

/-- A downstream failure: `message` is `error.message`, `responseData`
models `error.response?.data` (`none` when there is no response body). -/
structure DownstreamError where
  message : String
  responseData : Option String
deriving DecidableEq, Repr

/-- A downstream HTTP call issued by the gateway, recorded with its
distinguishing arguments. -/
inductive Call where
  | localizeCoords (image : String)
  | localizeFaces (image : String)
  | identify (image : String)
  | detectFaceAttention (image : String) (faceId : String)
  | detectHandRaising (image : String) (studentId : String) (timestamp : String)
deriving DecidableEq, Repr

/-- The four downstream services, as response oracles: each field gives,
for given request arguments, the settled outcome of the corresponding call. -/
structure Downstream where
  localizeCoords : String → Except DownstreamError (List BoundingBox)
  localizeFaces : String → Except DownstreamError (List String)
  identify : String → Except DownstreamError RecognitionData
  detectFaceAttention : String → String → Except DownstreamError AttentionData
  detectHandRaising : String → String → String → Except DownstreamError HandRaisingData

/-- The inbound multipart request: `image` is `req.file` (`none` when no
file was uploaded), `lectureId` and `timestamp` are the form fields
(`none` when absent). -/
structure FrameRequest where
  image : Option String
  lectureId : Option String
  timestamp : Option String
deriving DecidableEq, Repr

/-- The JSON body of a gateway response: a `400` validation body
`\x7berror\x7d`, a `500` pipeline-error body `\x7berror, message, details\x7d`,
or a `200` frame body. -/
inductive ResponseBody where
  | validationError (error : String)
  | pipelineError (error : String) (message : String) (details : String)
  | frame (body : FrameResponse)
deriving DecidableEq, Repr

/-- An HTTP response of the gateway. -/
structure HttpResponse where
  status : Nat
  body : ResponseBody
deriving DecidableEq, Repr

/-- Host-JavaScript date behaviour, external to this repository: `parse`
models `new Date(s)` (epoch milliseconds, `none` for an Invalid Date) and
`toISOString` models `Date.prototype.toISOString`. -/
structure JsDateModel where
  parse : String → Option Int
  toISOString : Int → String

/-- JavaScript truthiness of an optional string form field: absent
(`undefined`) and the empty string are falsy. -/
def truthy : Option String → Bool
  | none => false
  | some s => s ≠ ""

/-- Embeds `isValidISOString` (`app.js` lines 340-347): parse the string
as a date and require re-serialization to return exactly the input (an
invalid date makes `toISOString` throw in JS, caught to `false`, and is
`none` here). -/
def isValidISOString (M : JsDateModel) (s : String) : Bool :=
  match M.parse s with
  | none => false
  | some d => M.toISOString d == s

/-- The `details` field of a pipeline-error body (`app.js` line 334):
`error.response?.data || 'No additional details available'`; note the JS
`||` also replaces an empty-string body by the placeholder. -/
def detailsOf (e : DownstreamError) : String :=
  match e.responseData with
  | none => "No additional details available"
  | some d => if d = "" then "No additional details available" else d

/-- The `500` pipeline-error response body (`app.js` lines 331-335). -/
def pipelineBody (e : DownstreamError) : ResponseBody :=
  .pipelineError "Pipeline Error" e.message (detailsOf e)

/-- Embeds the JS `processFace` (`app.js` lines 148-209): Recognition,
then Attention (given the recognized `person_id`), then HandRaising, each
aborting the face on failure; returns the settled outcome together with
the downstream calls issued.  `lectureId` is a parameter of the JS
function but is never used by it. -/
def processFace (env : Downstream) (faceImage : String)
    (boundingBox : Option BoundingBox) (lectureId timestamp : String) :
    Except DownstreamError FaceAnalysis × List Call :=
  match env.identify faceImage with
  | .error e => (.error e, [.identify faceImage])
  | .ok rec =>
    match env.detectFaceAttention faceImage rec.person_id with
    | .error e =>
      (.error e, [.identify faceImage, .detectFaceAttention faceImage rec.person_id])
    | .ok att =>
      match env.detectHandRaising faceImage rec.person_id timestamp with
      | .error e =>
        (.error e,
         [.identify faceImage, .detectFaceAttention faceImage rec.person_id,
          .detectHandRaising faceImage rec.person_id timestamp])
      | .ok h =>
        (.ok { person_id := rec.person_id
               recognition_status := rec.status
               attention_status := att.attention_status
               hand_raising_status :=
                 { is_hand_raised := h.is_hand_raised
                   confidence := h.confidence
                   hand_position := h.hand_position }
               confidence := att.confidence
               bounding_box := boundingBox },
         [.identify faceImage, .detectFaceAttention faceImage rec.person_id,
          .detectHandRaising faceImage rec.person_id timestamp])

/-- Embeds `localizedFaces.map((faceImage, index) => processFace(faceImage,
faceCoordinates[index], ...))` (`app.js` lines 306-308): the launched
per-face computations, in positional order, starting at index `i`. -/
def faceRuns (env : Downstream) (lectureId timestamp : String)
    (coords : List BoundingBox) (i : Nat) :
    List String → List (Except DownstreamError FaceAnalysis × List Call)
  | [] => []
  | img :: rest =>
    processFace env img coords[i]? lectureId timestamp ::
      faceRuns env lectureId timestamp coords (i + 1) rest

/-- Embeds `Promise.all` over settled outcomes: all succeed and the values
are collected in order, or the join rejects with the first error in
positional order. -/
def collectAll : List (Except DownstreamError FaceAnalysis) →
    Except DownstreamError (List FaceAnalysis)
  | [] => .ok []
  | .error e :: _ => .error e
  | .ok a :: rest =>
    match collectAll rest with
    | .error e => .error e
    | .ok as => .ok (a :: as)

/-- The summary counters (`app.js` lines 318-324), computed exactly as in
the code: one `filter`-then-`length` per counter. -/
def mkSummary (results : List FaceAnalysis) : Summary :=
  { new_faces := (results.filter (fun r => r.recognition_status == "new")).length
    known_faces := (results.filter (fun r => r.recognition_status == "found")).length
    focused_faces := (results.filter (fun r => r.attention_status == "focused")).length
    unfocused_faces := (results.filter (fun r => r.attention_status == "unfocused")).length
    hands_raised := (results.filter (fun r => r.hand_raising_status.is_hand_raised)).length }

/-- Embeds the `POST /api/process-frame` handler (`app.js` lines 260-337):
validation in source order (lectureId, timestamp, image, timestamp
format), then the two Localization calls, then one `processFace` per
localized face, then aggregation; any downstream error yields the `500`
pipeline-error response.  Returns the HTTP response together with every
downstream call issued. -/
def processFrame (M : JsDateModel) (env : Downstream) (req : FrameRequest) :
    HttpResponse × List Call :=
  if !truthy req.lectureId then
    ({ status := 400, body := .validationError "Lecture ID is required" }, [])
  else if !truthy req.timestamp then
    ({ status := 400, body := .validationError "Timestamp is required" }, [])
  else
    match req.image with
    | none => ({ status := 400, body := .validationError "No image provided" }, [])
    | some img =>
      let l := req.lectureId.getD ""
      let t := req.timestamp.getD ""
      if !isValidISOString M t then
        ({ status := 400,
           body := .validationError "Invalid timestamp format. Must be ISO 8601" }, [])
      else
        match env.localizeCoords img, env.localizeFaces img with
        | .error e, _ =>
          ({ status := 500, body := pipelineBody e },
           [.localizeCoords img, .localizeFaces img])
        | .ok _, .error e =>
          ({ status := 500, body := pipelineBody e },
           [.localizeCoords img, .localizeFaces img])
        | .ok coords, .ok faces =>
          let runs := faceRuns env l t coords 0 faces
          let trace := [Call.localizeCoords img, Call.localizeFaces img] ++
            (runs.map Prod.snd).join
          match collectAll (runs.map Prod.fst) with
          | .error e => ({ status := 500, body := pipelineBody e }, trace)
          | .ok results =>
            ({ status := 200,
               body := .frame
                 { lecture_id := l
                   timestamp := t
                   total_faces := faces.length
                   faces := results
                   summary := mkSummary results } }, trace)

/-- The per-face record carries exactly the bounding box it was given. -/
theorem processFace_ok_bounding_box (env : Downstream) (img : String)
    (bb : Option BoundingBox) (l t : String) (a : FaceAnalysis)
    (h : (processFace env img bb l t).1 = .ok a) : a.bounding_box = bb := by
  rcases h1 : env.identify img with e | rec
  · simp [processFace, h1] at h
  rcases h2 : env.detectFaceAttention img rec.person_id with e | att
  · simp [processFace, h1, h2] at h
  rcases h3 : env.detectHandRaising img rec.person_id t with e | hr
  · simp [processFace, h1, h2, h3] at h
  simp [processFace, h1, h2, h3] at h
  rw [← h]

/-- There is one launched per-face run per localized face. -/
theorem faceRuns_length (env : Downstream) (l t : String)
    (coords : List BoundingBox) (faces : List String) (i : Nat) :
    (faceRuns env l t coords i faces).length = faces.length := by
  induction faces generalizing i with
  | nil => rfl
  | cons img rest ih => simp [faceRuns, ih]

/-- The j-th launched run processes the j-th face with the j-th box. -/
theorem faceRuns_getElem? (env : Downstream) (l t : String)
    (coords : List BoundingBox) (faces : List String) (i j : Nat) :
    (faceRuns env l t coords i faces)[j]? =
      (faces[j]?).map (fun img => processFace env img coords[i + j]? l t) := by
  induction faces generalizing i j with
  | nil => simp [faceRuns]
  | cons img rest ih =>
    cases j with
    | zero => simp [faceRuns]
    | succ j =>
      simp only [faceRuns, List.getElem?_cons_succ, ih (i + 1) j]
      have : i + 1 + j = i + (j + 1) := by omega
      rw [this]

/-- A join over settled outcomes succeeds with as many values as inputs. -/
theorem collectAll_ok_length (xs : List (Except DownstreamError FaceAnalysis))
    (r : List FaceAnalysis) (h : collectAll xs = .ok r) : r.length = xs.length := by
  induction xs generalizing r with
  | nil => simp [collectAll] at h; simp [← h]
  | cons x rest ih =>
    rcases x with e | a
    · simp [collectAll] at h
    · unfold collectAll at h
      rcases hr : collectAll rest with e | as <;> rw [hr] at h <;> simp at h
      rw [← h]
      simp [ih as hr]

/-- A successful join collects exactly the positional outcomes. -/
theorem collectAll_ok_getElem? (xs : List (Except DownstreamError FaceAnalysis))
    (r : List FaceAnalysis) (h : collectAll xs = .ok r) (j : Nat) :
    xs[j]? = (r[j]?).map Except.ok := by
  induction xs generalizing r j with
  | nil =>
    simp [collectAll] at h
    subst h
    simp
  | cons x rest ih =>
    rcases x with e | a
    · simp [collectAll] at h
    · unfold collectAll at h
      rcases hr : collectAll rest with e | as <;> rw [hr] at h <;> simp at h
      subst h
      cases j with
      | zero => simp
      | succ j => simpa using ih as hr j

/-- A join over outcomes containing an error rejects with some error. -/
theorem collectAll_error_of_getElem? (xs : List (Except DownstreamError FaceAnalysis))
    (i : Nat) (e : DownstreamError) (h : xs[i]? = some (.error e)) :
    ∃ e', collectAll xs = .error e' := by
  induction xs generalizing i with
  | nil => simp at h
  | cons x rest ih =>
    cases i with
    | zero =>
      simp at h
      subst h
      exact ⟨e, rfl⟩
    | succ i =>
      simp at h
      rcases x with e0 | a
      · exact ⟨e0, rfl⟩
      · rcases ih i h with ⟨e', he⟩
        exact ⟨e', by simp [collectAll, he]⟩

/-- Inversion of a `200` response: it can only arise from a fully valid
request, two successful Localization calls and a successful join, and its
body is exactly the aggregate the handler builds. -/
theorem processFrame_ok_inv (M : JsDateModel) (env : Downstream)
    (req : FrameRequest) (b : FrameResponse) (tr : List Call)
    (h : processFrame M env req = ({ status := 200, body := .frame b }, tr)) :
    ∃ img l t coords faces results,
      req.image = some img ∧ req.lectureId = some l ∧ req.timestamp = some t ∧
      env.localizeCoords img = .ok coords ∧ env.localizeFaces img = .ok faces ∧
      collectAll ((faceRuns env l t coords 0 faces).map Prod.fst) = .ok results ∧
      b = { lecture_id := l, timestamp := t, total_faces := faces.length,
            faces := results, summary := mkSummary results } := by
  rcases hL : req.lectureId with _ | l
  · simp [processFrame, hL, truthy] at h
  by_cases hl0 : l = ""
  · simp [processFrame, hL, truthy, hl0] at h
  rcases hT : req.timestamp with _ | t
  · simp [processFrame, hL, hT, truthy, hl0] at h
  by_cases ht0 : t = ""
  · simp [processFrame, hL, hT, truthy, hl0, ht0] at h
  rcases hI : req.image with _ | img
  · simp [processFrame, hL, hT, hI, truthy, hl0, ht0] at h
  by_cases hv : isValidISOString M t = true
  · rcases hc : env.localizeCoords img with e | coords
    · simp [processFrame, hL, hT, hI, truthy, hl0, ht0, hv, hc] at h
    rcases hf : env.localizeFaces img with e | faces
    · simp [processFrame, hL, hT, hI, truthy, hl0, ht0, hv, hc, hf] at h
    rcases hcol : collectAll ((faceRuns env l t coords 0 faces).map Prod.fst) with e | results
    · simp [processFrame, hL, hT, hI, truthy, hl0, ht0, hv, hc, hf, hcol] at h
    · simp [processFrame, hL, hT, hI, truthy, hl0, ht0, hv, hc, hf, hcol] at h
      exact ⟨img, l, t, coords, faces, results, rfl, rfl, rfl, hc, hf, hcol,
        h.1.symm⟩
  · simp [processFrame, hL, hT, hI, truthy, hl0, ht0, hv] at h

/-- A canonical ISO-8601 instant, used as a concrete test timestamp. -/
def isoT : String := "1970-01-01T00:00:00.000Z"

/-- A concrete host-date model: the only parseable string is `isoT`, which
re-serializes to itself (so it round-trips, and nothing else does). -/
def M0 : JsDateModel :=
  { parse := fun s => if s = isoT then some 0 else none
    toISOString := fun _ => isoT }

/-- First test bounding box. -/
def bb0 : BoundingBox := { x := 0, y := 0, width := 10, height := 10 }

/-- Second test bounding box. -/
def bb1 : BoundingBox := { x := 20, y := 20, width := 10, height := 10 }

/-- A downstream world where every service succeeds: two localized faces
with matching coordinates and deterministic per-face answers. -/
def envOk : Downstream :=
  { localizeCoords := fun _ => .ok [bb0, bb1]
    localizeFaces := fun _ => .ok ["f0", "f1"]
    identify := fun img =>
      .ok (if img = "f0" then { person_id := "p1", status := "new" }
           else { person_id := "p2", status := "found" })
    detectFaceAttention := fun img _ =>
      .ok (if img = "f0" then { attention_status := "focused", confidence := 9 }
           else { attention_status := "unfocused", confidence := 4 })
    detectHandRaising := fun img _ _ =>
      .ok (if img = "f0" then
             { is_hand_raised := true, confidence := 8, hand_position := { x := 1, y := 2 } }
           else
             { is_hand_raised := false, confidence := 3, hand_position := { x := 0, y := 0 } }) }

/-- A downstream world whose faces and coordinates arrays disagree in
length: one cropped face but an empty coordinates array; every service
call still succeeds. -/
def envMismatch : Downstream :=
  { envOk with
    localizeCoords := fun _ => .ok []
    localizeFaces := fun _ => .ok ["f0"] }

/-- A downstream world where the Localization coordinates call fails. -/
def envFail : Downstream :=
  { envOk with
    localizeCoords := fun _ => .error { message := "boom", responseData := some "svc down" } }

/-- A downstream world where Localization finds no faces at all. -/
def envEmpty : Downstream :=
  { envOk with
    localizeCoords := fun _ => .ok []
    localizeFaces := fun _ => .ok [] }

/-- A fully valid concrete request. -/
def goodReq : FrameRequest :=
  { image := some "frame", lectureId := some "L1", timestamp := some isoT }

/-- The per-face analysis produced for the first test face under `envOk`. -/
def face0 : FaceAnalysis :=
  { person_id := "p1", recognition_status := "new", attention_status := "focused"
    hand_raising_status :=
      { is_hand_raised := true, confidence := 8, hand_position := { x := 1, y := 2 } }
    confidence := 9, bounding_box := some bb0 }

/-- The per-face analysis produced for the second test face under `envOk`. -/
def face1 : FaceAnalysis :=
  { person_id := "p2", recognition_status := "found", attention_status := "unfocused"
    hand_raising_status :=
      { is_hand_raised := false, confidence := 3, hand_position := { x := 0, y := 0 } }
    confidence := 4, bounding_box := some bb1 }

/-- The frame response body produced for `goodReq` under `envOk`. -/
def bExp : FrameResponse :=
  { lecture_id := "L1", timestamp := isoT, total_faces := 2, faces := [face0, face1]
    summary := { new_faces := 1, known_faces := 1, focused_faces := 1
                 unfocused_faces := 1, hands_raised := 1 } }

/-- The downstream calls issued for `goodReq` under `envOk`, in order. -/
def trExp : List Call :=
  [.localizeCoords "frame", .localizeFaces "frame",
   .identify "f0", .detectFaceAttention "f0" "p1", .detectHandRaising "f0" "p1" isoT,
   .identify "f1", .detectFaceAttention "f1" "p2", .detectHandRaising "f1" "p2" isoT]

/-- Concrete evaluation of the pipeline on the all-services-succeed world. -/
theorem goodEval : processFrame M0 envOk goodReq =
    ({ status := 200, body := .frame bExp }, trExp) := by decide

/-- Claim C1: for every request where all downstream calls succeed (the
handler answers with a `200` frame body), each summary counter of the
returned response equals the count, over the faces sequence, of the
corresponding predicate: recognition status `new` / `found`, attention
status `focused` / `unfocused`, and `is_hand_raised` true. -/
theorem summary_counters_count_predicates (M : JsDateModel) (env : Downstream)
    (req : FrameRequest) (b : FrameResponse) (tr : List Call)
    (h : processFrame M env req = ({ status := 200, body := .frame b }, tr)) :
    b.summary.new_faces = b.faces.countP (fun r => r.recognition_status == "new") ∧
    b.summary.known_faces = b.faces.countP (fun r => r.recognition_status == "found") ∧
    b.summary.focused_faces = b.faces.countP (fun r => r.attention_status == "focused") ∧
    b.summary.unfocused_faces = b.faces.countP (fun r => r.attention_status == "unfocused") ∧
    b.summary.hands_raised = b.faces.countP (fun r => r.hand_raising_status.is_hand_raised) := by
  obtain ⟨img, l, t, coords, faces, results, _, _, _, _, _, _, hb⟩ :=
    processFrame_ok_inv M env req b tr h
  subst hb
  simp [mkSummary, List.countP_eq_length_filter]

/-- Witness for C1 on the concrete two-face run under `envOk`. -/
theorem summary_counters_count_predicates_witness :
    bExp.summary.new_faces = bExp.faces.countP (fun r => r.recognition_status == "new") ∧
    bExp.summary.known_faces = bExp.faces.countP (fun r => r.recognition_status == "found") ∧
    bExp.summary.focused_faces = bExp.faces.countP (fun r => r.attention_status == "focused") ∧
    bExp.summary.unfocused_faces = bExp.faces.countP (fun r => r.attention_status == "unfocused") ∧
    bExp.summary.hands_raised = bExp.faces.countP (fun r => r.hand_raising_status.is_hand_raised) :=
  summary_counters_count_predicates M0 envOk goodReq bExp trExp goodEval

/-- The per-face analysis produced for the single face of `envMismatch`:
its `bounding_box` is `none` because the coordinates array was empty. -/
def faceMis : FaceAnalysis :=
  { person_id := "p1", recognition_status := "new", attention_status := "focused"
    hand_raising_status :=
      { is_hand_raised := true, confidence := 8, hand_position := { x := 1, y := 2 } }
    confidence := 9, bounding_box := none }

/-- Claim C2 counterexample: under `envMismatch` every downstream call
succeeds and the request is valid, yet the handler answers `200` with
`total_faces = 1` while the Localization coordinates call returned `0`
entries, so `totalFaces` does not equal the number of coordinate
entries.  The code never compares the lengths of the two Localization
arrays. -/
theorem total_faces_coord_count_counterexample :
    envMismatch.localizeCoords "frame" = .ok [] ∧
    envMismatch.localizeFaces "frame" = .ok ["f0"] ∧
    processFrame M0 envMismatch goodReq =
      ({ status := 200,
         body := .frame
           { lecture_id := "L1", timestamp := isoT, total_faces := 1, faces := [faceMis]
             summary := { new_faces := 1, known_faces := 0, focused_faces := 1
                          unfocused_faces := 0, hands_raised := 1 } } },
       [.localizeCoords "frame", .localizeFaces "frame", .identify "f0",
        .detectFaceAttention "f0" "p1", .detectHandRaising "f0" "p1" isoT]) ∧
    (1 : Nat) ≠ ([] : List BoundingBox).length :=
  ⟨rfl, rfl, by decide, by decide⟩

/-- Claim C2 as amended: for every valid request where all downstream
services succeed AND Localization's coordinates and faces arrays have the
same length, the returned frame satisfies
`faces.length = total_faces = ` number of coordinate entries. -/
theorem total_faces_eq_coord_count_of_same_length (M : JsDateModel)
    (env : Downstream) (req : FrameRequest) (b : FrameResponse) (tr : List Call)
    (img : String) (coords : List BoundingBox) (faces : List String)
    (h : processFrame M env req = ({ status := 200, body := .frame b }, tr))
    (hi : req.image = some img)
    (hc : env.localizeCoords img = .ok coords)
    (hf : env.localizeFaces img = .ok faces)
    (hlen : coords.length = faces.length) :
    b.faces.length = b.total_faces ∧ b.total_faces = coords.length := by
  obtain ⟨img2, l, t, coords2, faces2, results, hi2, hl2, ht2, hc2, hf2, hcol, hb⟩ :=
    processFrame_ok_inv M env req b tr h
  rw [hi] at hi2
  injection hi2 with hi2
  subst hi2
  rw [hc] at hc2
  injection hc2 with hc2
  subst hc2
  rw [hf] at hf2
  injection hf2 with hf2
  subst hf2
  subst hb
  have hr := collectAll_ok_length _ _ hcol
  simp only [List.length_map, faceRuns_length] at hr
  exact ⟨by simpa using hr, hlen.symm⟩

/-- Witness for C2 (amended) on the concrete two-face run. -/
theorem total_faces_eq_coord_count_of_same_length_witness :
    bExp.faces.length = bExp.total_faces ∧ bExp.total_faces = [bb0, bb1].length :=
  total_faces_eq_coord_count_of_same_length M0 envOk goodReq bExp trExp
    "frame" [bb0, bb1] ["f0", "f1"] goodEval rfl rfl rfl rfl

/-- Claim C3: for every validated request, if any downstream call fails
(either Localization call, or Recognition / Attention / HandRaising for
any face), the handler answers `500` with a body
`\x7berror: "Pipeline Error", message, details\x7d`; that body carries no
face results, so no partial frame ever appears in a returned payload. -/
theorem downstream_failure_yields_pipeline_error (M : JsDateModel)
    (env : Downstream) (req : FrameRequest) (img l t : String)
    (hi : req.image = some img) (hl : req.lectureId = some l)
    (ht : req.timestamp = some t)
    (hl0 : l ≠ "") (ht0 : t ≠ "") (hv : isValidISOString M t = true)
    (hfail : (∃ e, env.localizeCoords img = .error e) ∨
             (∃ e, env.localizeFaces img = .error e) ∨
             (∃ (coords : List BoundingBox) (faces : List String) (i : Nat)
                (im : String) (e : DownstreamError),
                env.localizeCoords img = .ok coords ∧
                env.localizeFaces img = .ok faces ∧ faces[i]? = some im ∧
                (processFace env im coords[i]? l t).1 = .error e)) :
    ∃ m d, (processFrame M env req).1 =
      { status := 500, body := .pipelineError "Pipeline Error" m d } := by
  rcases hfail with ⟨e, hce⟩ | ⟨e, hfe⟩ | ⟨coords, faces, i, im, e, hc, hf, hgi, hpf⟩
  · exact ⟨e.message, detailsOf e,
      by simp [processFrame, hi, hl, ht, truthy, hl0, ht0, hv, hce, pipelineBody]⟩
  · rcases hc : env.localizeCoords img with e0 | coords
    · exact ⟨e0.message, detailsOf e0,
        by simp [processFrame, hi, hl, ht, truthy, hl0, ht0, hv, hc, pipelineBody]⟩
    · exact ⟨e.message, detailsOf e,
        by simp [processFrame, hi, hl, ht, truthy, hl0, ht0, hv, hc, hfe, pipelineBody]⟩
  · have h1 : (faceRuns env l t coords 0 faces)[i]? =
        some (processFace env im coords[i]? l t) := by
      rw [faceRuns_getElem?]
      simp [hgi]
    have h2 : ((faceRuns env l t coords 0 faces).map Prod.fst)[i]? =
        some (.error e) := by
      rw [List.getElem?_map, h1]
      simp [hpf]
    obtain ⟨e', hcol⟩ := collectAll_error_of_getElem? _ i e h2
    exact ⟨e'.message, detailsOf e',
      by simp [processFrame, hi, hl, ht, truthy, hl0, ht0, hv, hc, hf, hcol, pipelineBody]⟩

/-- Witness for C3: the coordinates call fails under `envFail`, and the
response is the `500` pipeline error. -/
theorem downstream_failure_yields_pipeline_error_witness :
    ∃ m d, (processFrame M0 envFail goodReq).1 =
      { status := 500, body := .pipelineError "Pipeline Error" m d } :=
  downstream_failure_yields_pipeline_error M0 envFail goodReq "frame" "L1" isoT
    rfl rfl rfl (by decide) (by decide) (by decide)
    (Or.inl ⟨{ message := "boom", responseData := some "svc down" }, rfl⟩)

/-- A request violates one of the handler's preconditions: lectureId
falsy, timestamp falsy, image absent, or timestamp present but not a
canonical ISO-8601 round-trip. -/
def violatesPrecondition (M : JsDateModel) (req : FrameRequest) : Prop :=
  truthy req.lectureId = false ∨ truthy req.timestamp = false ∨ req.image = none ∨
    (∃ t, req.timestamp = some t ∧ isValidISOString M t = false)

/-- The message names a precondition that the request actually violates:
each of the four distinct `400` messages is tied to its own failed check. -/
def messageIdentifies (M : JsDateModel) (req : FrameRequest) (msg : String) : Prop :=
  (msg = "Lecture ID is required" ∧ truthy req.lectureId = false) ∨
  (msg = "Timestamp is required" ∧ truthy req.timestamp = false) ∨
  (msg = "No image provided" ∧ req.image = none) ∨
  (msg = "Invalid timestamp format. Must be ISO 8601" ∧
    ∃ t, req.timestamp = some t ∧ isValidISOString M t = false)

/-- Claim C4: for every request missing the image, the lectureId, or the
timestamp, or whose timestamp is not valid, the handler answers `400`
with a message identifying a violated precondition, and issues no
downstream call (the emitted call trace is empty). -/
theorem validation_failure_400_no_calls (M : JsDateModel) (env : Downstream)
    (req : FrameRequest) (h : violatesPrecondition M req) :
    ∃ msg, processFrame M env req =
        ({ status := 400, body := .validationError msg }, []) ∧
      messageIdentifies M req msg := by
  rcases hL : req.lectureId with _ | l
  · exact ⟨"Lecture ID is required", by simp [processFrame, hL, truthy],
      Or.inl ⟨rfl, by simp [truthy, hL]⟩⟩
  by_cases hl0 : l = ""
  · exact ⟨"Lecture ID is required", by simp [processFrame, hL, truthy, hl0],
      Or.inl ⟨rfl, by simp [truthy, hL, hl0]⟩⟩
  rcases hT : req.timestamp with _ | t
  · exact ⟨"Timestamp is required", by simp [processFrame, hL, hT, truthy, hl0],
      Or.inr (Or.inl ⟨rfl, by simp [truthy, hT]⟩)⟩
  by_cases ht0 : t = ""
  · exact ⟨"Timestamp is required", by simp [processFrame, hL, hT, truthy, hl0, ht0],
      Or.inr (Or.inl ⟨rfl, by simp [truthy, hT, ht0]⟩)⟩
  rcases hI : req.image with _ | img
  · exact ⟨"No image provided", by simp [processFrame, hL, hT, hI, truthy, hl0, ht0],
      Or.inr (Or.inr (Or.inl ⟨rfl, hI⟩))⟩
  by_cases hv : isValidISOString M t = true
  · exfalso
    rcases h with h | h | h | ⟨t2, ht2, hv2⟩
    · rw [hL] at h
      simp [truthy, hl0] at h
    · rw [hT] at h
      simp [truthy, ht0] at h
    · rw [hI] at h
      simp at h
    · rw [hT] at ht2
      injection ht2 with ht2
      subst ht2
      rw [hv] at hv2
      simp at hv2
  · refine ⟨"Invalid timestamp format. Must be ISO 8601",
      by simp [processFrame, hL, hT, hI, truthy, hl0, ht0, hv], ?_⟩
    exact Or.inr (Or.inr (Or.inr ⟨rfl, t, hT, by simpa using hv⟩))

/-- Witness for C4: a request whose lectureId is missing gets a `400`,
the matching message, and an empty downstream call trace. -/
theorem validation_failure_400_no_calls_witness :
    ∃ msg, processFrame M0 envOk
        { image := some "frame", lectureId := none, timestamp := some isoT } =
        ({ status := 400, body := .validationError msg }, []) ∧
      messageIdentifies M0
        { image := some "frame", lectureId := none, timestamp := some isoT } msg :=
  validation_failure_400_no_calls M0 envOk
    { image := some "frame", lectureId := none, timestamp := some isoT }
    (Or.inl (by decide))

/-- A request missing both its image and its lectureId. -/
def reqMissingBoth : FrameRequest :=
  { image := none, lectureId := none, timestamp := some isoT }

/-- Claim C5 counterexample: the claim says the image-presence check comes
first, so a request missing both the image and the lectureId would get
the image error; the code instead checks lectureId first and answers
"Lecture ID is required", a different message than "No image provided". -/
theorem validation_order_counterexample :
    reqMissingBoth.image = none ∧ reqMissingBoth.lectureId = none ∧
    processFrame M0 envOk reqMissingBoth =
      ({ status := 400, body := .validationError "Lecture ID is required" }, []) ∧
    ResponseBody.validationError "Lecture ID is required" ≠
      ResponseBody.validationError "No image provided" := by decide

/-- Modelled from the amended claim: the validation cascade in the order
the code actually performs it — lectureId truthy, then timestamp truthy,
then image present, then timestamp canonical — returning the error
message of the first failing check, or `none` when validation passes. -/
def firstFailingMessage (M : JsDateModel) (req : FrameRequest) : Option String :=
  if !truthy req.lectureId then some "Lecture ID is required"
  else if !truthy req.timestamp then some "Timestamp is required"
  else if req.image.isNone then some "No image provided"
  else if !isValidISOString M (req.timestamp.getD "") then
    some "Invalid timestamp format. Must be ISO 8601"
  else none

/-- Claim C5 as amended: the handler checks its preconditions in the
order lectureId non-empty, timestamp present, image present, timestamp
valid — each with its own distinct `400` message — and for a request
violating several preconditions the error returned is the one for the
first check in that order. -/
theorem validation_order_follows_code (M : JsDateModel) (env : Downstream)
    (req : FrameRequest) (msg : String)
    (h : firstFailingMessage M req = some msg) :
    processFrame M env req = ({ status := 400, body := .validationError msg }, []) ∧
    ["Lecture ID is required", "Timestamp is required", "No image provided",
     "Invalid timestamp format. Must be ISO 8601"].Pairwise (fun a b => a ≠ b) := by
  refine ⟨?_, by decide⟩
  rcases hL : req.lectureId with _ | l
  · simp only [firstFailingMessage, hL, truthy] at h
    simp only [Bool.not_false, if_pos] at h
    injection h with h
    subst h
    simp [processFrame, hL, truthy]
  by_cases hl0 : l = ""
  · simp only [firstFailingMessage, hL, truthy, hl0] at h
    simp at h
    subst h
    simp [processFrame, hL, truthy, hl0]
  rcases hT : req.timestamp with _ | t
  · simp only [firstFailingMessage, hL, hT, truthy] at h
    simp [hl0] at h
    subst h
    simp [processFrame, hL, hT, truthy, hl0]
  by_cases ht0 : t = ""
  · simp only [firstFailingMessage, hL, hT, truthy, ht0] at h
    simp [hl0] at h
    subst h
    simp [processFrame, hL, hT, truthy, hl0, ht0]
  rcases hI : req.image with _ | img
  · simp only [firstFailingMessage, hL, hT, hI, truthy] at h
    simp [hl0, ht0] at h
    subst h
    simp [processFrame, hL, hT, hI, truthy, hl0, ht0]
  by_cases hv : isValidISOString M t = true
  · simp only [firstFailingMessage, hL, hT, hI, truthy] at h
    simp [hl0, ht0, hv] at h
  · simp only [firstFailingMessage, hL, hT, hI, truthy] at h
    simp [hl0, ht0, hv] at h
    subst h
    simp [processFrame, hL, hT, hI, truthy, hl0, ht0, hv]

/-- Witness for C5 (amended) on the request missing image and lectureId:
the lectureId check fires first. -/
theorem validation_order_follows_code_witness :
    (processFrame M0 envOk reqMissingBoth =
      ({ status := 400, body := .validationError "Lecture ID is required" }, [])) ∧
    ["Lecture ID is required", "Timestamp is required", "No image provided",
     "Invalid timestamp format. Must be ISO 8601"].Pairwise (fun a b => a ≠ b) :=
  validation_order_follows_code M0 envOk reqMissingBoth "Lecture ID is required" (by decide)

/-- Claim C6: the timestamp precondition accepts a string iff it
round-trips byte-for-byte through canonical ISO-8601 re-serialization
(parsing yields a date whose re-serialization is exactly the input), and
any request carrying a non-round-tripping timestamp is answered `400`
with no downstream call issued. -/
theorem iso_check_iff_roundtrip (M : JsDateModel) (s : String) :
    (isValidISOString M s = true ↔
      ∃ d, M.parse s = some d ∧ M.toISOString d = s) ∧
    (∀ env req, req.timestamp = some s → isValidISOString M s = false →
      (processFrame M env req).1.status = 400 ∧ (processFrame M env req).2 = []) := by
  constructor
  · unfold isValidISOString
    rcases hp : M.parse s with _ | d
    · simp
    · simp only [beq_iff_eq]
      constructor
      · intro hts
        exact ⟨d, rfl, hts⟩
      · rintro ⟨d2, hd2, hts⟩
        injection hd2 with hd2
        subst hd2
        exact hts
  · intro env req hts hv
    rcases hL : req.lectureId with _ | l
    · simp [processFrame, hL, truthy]
    by_cases hl0 : l = ""
    · simp [processFrame, hL, truthy, hl0]
    by_cases hs0 : s = ""
    · simp [processFrame, hL, hts, truthy, hl0, hs0]
    rcases hI : req.image with _ | img
    · simp [processFrame, hL, hts, hI, truthy, hl0, hs0]
    · simp [processFrame, hL, hts, hI, truthy, hl0, hs0, hv]

/-- Witness for C6 at the non-round-tripping string "bad" (under `M0`,
parsing "bad" gives an Invalid Date). -/
theorem iso_check_iff_roundtrip_witness :
    (isValidISOString M0 "bad" = true ↔
      ∃ d, M0.parse "bad" = some d ∧ M0.toISOString d = "bad") ∧
    ((processFrame M0 envOk
        { image := some "frame", lectureId := some "L1", timestamp := some "bad" }).1.status
        = 400 ∧
      (processFrame M0 envOk
        { image := some "frame", lectureId := some "L1", timestamp := some "bad" }).2 = []) :=
  ⟨(iso_check_iff_roundtrip M0 "bad").1,
   (iso_check_iff_roundtrip M0 "bad").2 envOk
     { image := some "frame", lectureId := some "L1", timestamp := some "bad" }
     rfl (by decide)⟩

/-- Claim C7: on every successful request, the faces sequence preserves
Localization's positional order — the i-th returned analysis is the
outcome of processing the i-th cropped face image, and it carries,
unmodified, the i-th bounding box of the coordinates response. -/
theorem faces_preserve_localization_order (M : JsDateModel) (env : Downstream)
    (req : FrameRequest) (b : FrameResponse) (tr : List Call)
    (img l t : String) (coords : List BoundingBox) (faces : List String) (i : Nat)
    (h : processFrame M env req = ({ status := 200, body := .frame b }, tr))
    (hi : req.image = some img) (hl : req.lectureId = some l)
    (ht : req.timestamp = some t)
    (hc : env.localizeCoords img = .ok coords)
    (hf : env.localizeFaces img = .ok faces)
    (hib : i < b.faces.length) (hico : i < coords.length) :
    ∃ a im bx, b.faces[i]? = some a ∧ faces[i]? = some im ∧
      coords[i]? = some bx ∧
      (processFace env im (some bx) l t).1 = .ok a ∧
      a.bounding_box = some bx := by
  obtain ⟨img2, l2, t2, coords2, faces2, results, hi2, hl2, ht2, hc2, hf2, hcol, hb⟩ :=
    processFrame_ok_inv M env req b tr h
  rw [hi] at hi2
  injection hi2 with hi2
  subst hi2
  rw [hl] at hl2
  injection hl2 with hl2
  subst hl2
  rw [ht] at ht2
  injection ht2 with ht2
  subst ht2
  rw [hc] at hc2
  injection hc2 with hc2
  subst hc2
  rw [hf] at hf2
  injection hf2 with hf2
  subst hf2
  subst hb
  have hib2 : i < results.length := by simpa using hib
  have ha : results[i]? = some results[i] := List.getElem?_eq_getElem hib2
  have hbx : coords[i]? = some coords[i] := List.getElem?_eq_getElem hico
  have hxs := collectAll_ok_getElem? _ _ hcol i
  rw [ha, List.getElem?_map, faceRuns_getElem?] at hxs
  rcases hfi : faces[i]? with _ | im
  · rw [hfi] at hxs
    simp at hxs
  rw [hfi] at hxs
  simp only [Option.map_some, Nat.zero_add] at hxs
  rw [hbx] at hxs
  injection hxs with hxs
  refine ⟨results[i], im, coords[i], by simpa using ha, rfl, hbx, hxs, ?_⟩
  exact processFace_ok_bounding_box env im (some coords[i]) l t _ hxs

/-- Witness for C7 at index 0 of the concrete two-face run. -/
theorem faces_preserve_localization_order_witness :
    ∃ a im bx, bExp.faces[0]? = some a ∧ (["f0", "f1"] : List String)[0]? = some im ∧
      ([bb0, bb1] : List BoundingBox)[0]? = some bx ∧
      (processFace envOk im (some bx) "L1" isoT).1 = .ok a ∧
      a.bounding_box = some bx :=
  faces_preserve_localization_order M0 envOk goodReq bExp trExp
    "frame" "L1" isoT [bb0, bb1] ["f0", "f1"] 0 goodEval
    rfl rfl rfl rfl rfl (by decide) (by decide)

/-- Claim C8: the handler is deterministic — two requests with identical
fields produce identical responses and call traces under the same
downstream world — and on success the response echoes the caller-supplied
lectureId and timestamp verbatim (the embedding consults no clock: the
output is a function of the request and the downstream responses only). -/
theorem response_deterministic_echoes_caller (M : JsDateModel) (env : Downstream)
    (r r2 : FrameRequest)
    (h1 : r.image = r2.image) (h2 : r.lectureId = r2.lectureId)
    (h3 : r.timestamp = r2.timestamp) :
    processFrame M env r = processFrame M env r2 ∧
    (∀ l t b tr, r.lectureId = some l → r.timestamp = some t →
      processFrame M env r = ({ status := 200, body := .frame b }, tr) →
      b.lecture_id = l ∧ b.timestamp = t) := by
  have hrr : r = r2 := by
    cases r
    cases r2
    simp_all
  subst hrr
  refine ⟨rfl, ?_⟩
  intro l t b tr hl ht h
  obtain ⟨img, l2, t2, coords, faces, results, hi2, hl2, ht2, hc2, hf2, hcol, hb⟩ :=
    processFrame_ok_inv M env r b tr h
  rw [hl] at hl2
  injection hl2 with hl2
  rw [ht] at ht2
  injection ht2 with ht2
  subst hb
  simp [← hl2, ← ht2]

/-- Witness for C8 on the concrete run: the response echoes "L1" and the
caller's timestamp. -/
theorem response_deterministic_echoes_caller_witness :
    processFrame M0 envOk goodReq = processFrame M0 envOk goodReq ∧
    (∀ l t b tr, goodReq.lectureId = some l → goodReq.timestamp = some t →
      processFrame M0 envOk goodReq = ({ status := 200, body := .frame b }, tr) →
      b.lecture_id = l ∧ b.timestamp = t) :=
  response_deterministic_echoes_caller M0 envOk goodReq goodReq rfl rfl rfl

/-- Claim C9: when all three per-face services succeed, the top-level
`confidence` of the assembled per-face record is the Attention service's
confidence, while the HandRaising confidence appears only nested inside
`hand_raising_status`; the two are never merged or swapped. -/
theorem confidences_not_merged (env : Downstream) (img : String)
    (bb : Option BoundingBox) (l t : String)
    (rec : RecognitionData) (att : AttentionData) (hr : HandRaisingData)
    (h1 : env.identify img = .ok rec)
    (h2 : env.detectFaceAttention img rec.person_id = .ok att)
    (h3 : env.detectHandRaising img rec.person_id t = .ok hr) :
    ∃ a, (processFace env img bb l t).1 = .ok a ∧
      a.confidence = att.confidence ∧
      a.hand_raising_status.confidence = hr.confidence := by
  refine ⟨{ person_id := rec.person_id, recognition_status := rec.status
            attention_status := att.attention_status
            hand_raising_status :=
              { is_hand_raised := hr.is_hand_raised, confidence := hr.confidence
                hand_position := hr.hand_position }
            confidence := att.confidence, bounding_box := bb }, ?_, rfl, rfl⟩
  simp [processFace, h1, h2, h3]

/-- Witness for C9 on the first concrete face under `envOk`. -/
theorem confidences_not_merged_witness :
    ∃ a, (processFace envOk "f0" (some bb0) "L1" isoT).1 = .ok a ∧
      a.confidence = (9 : Int) ∧
      a.hand_raising_status.confidence = (8 : Int) :=
  confidences_not_merged envOk "f0" (some bb0) "L1" isoT
    { person_id := "p1", status := "new" }
    { attention_status := "focused", confidence := 9 }
    { is_hand_raised := true, confidence := 8, hand_position := { x := 1, y := 2 } }
    rfl rfl rfl

/-- Claim C10: for every valid request where both Localization calls
succeed with zero faces and zero coordinates, the handler answers `200`
with `total_faces = 0`, an empty faces sequence and all five summary
counters zero, and the only downstream calls issued are the two
Localization calls — no Recognition, Attention or HandRaising call. -/
theorem zero_faces_empty_success (M : JsDateModel) (env : Downstream)
    (req : FrameRequest) (img l t : String)
    (hi : req.image = some img) (hl : req.lectureId = some l)
    (ht : req.timestamp = some t)
    (hl0 : l ≠ "") (ht0 : t ≠ "") (hv : isValidISOString M t = true)
    (hc : env.localizeCoords img = .ok []) (hf : env.localizeFaces img = .ok []) :
    processFrame M env req =
      ({ status := 200,
         body := .frame
           { lecture_id := l, timestamp := t, total_faces := 0, faces := []
             summary := { new_faces := 0, known_faces := 0, focused_faces := 0
                          unfocused_faces := 0, hands_raised := 0 } } },
       [.localizeCoords img, .localizeFaces img]) := by
  simp [processFrame, hi, hl, ht, truthy, hl0, ht0, hv, hc, hf, faceRuns,
    collectAll, mkSummary]

/-- Witness for C10 under `envEmpty`. -/
theorem zero_faces_empty_success_witness :
    processFrame M0 envEmpty goodReq =
      ({ status := 200,
         body := .frame
           { lecture_id := "L1", timestamp := isoT, total_faces := 0, faces := []
             summary := { new_faces := 0, known_faces := 0, focused_faces := 0
                          unfocused_faces := 0, hands_raised := 0 } } },
       [.localizeCoords "frame", .localizeFaces "frame"]) :=
  zero_faces_empty_success M0 envEmpty goodReq "frame" "L1" isoT
    rfl rfl rfl (by decide) (by decide) (by decide) rfl rfl
